import Mathlib

/-!
Shallow embedding of the IP-Portfolio-Strategist Flask application
(`src/ip_strategist/app.py`) and proofs of the specification claims.

The application is a thin orchestration layer around an external
generative-AI provider.  We embed:

  * the JSON request bodies as association lists of string fields,
  * the provider interaction of `call_gemini_api` as a function of the
    provider response (transport exception, or HTTP status plus parsed
    JSON body),
  * the rate limiter `rate_limit` as a pure function of the current
    clock value and the stored last-call timestamp (single-threaded,
    idealised sleep), over the rationals,
  * the `/chat` and `/analyze` handlers as functions of the environment
    (CrewAI availability, LLM handle, API key), the request body, the
    oracle outcome of the outbound call, and the rate-limiter state,
    returning the HTTP response, the new rate-limiter state, and whether
    the agent pipeline was invoked.

Only the active code of `app.py` (lines 1-396) defines the handlers;
the commented-out refinement variant (lines 400-773) defines
`refine_output`, which we embed from that text since the claims cite it.
-/

set_option maxRecDepth 10000

namespace IPStrategist

/-- Test whether the character list `s` starts with the character list
`t`. -/
def startsWithChars : List Char → List Char → Bool
  | [], _ => true
  | _ :: _, [] => false
  | a :: as, b :: bs => a == b && startsWithChars as bs

/-- Test whether the character list `t` occurs (contiguously) somewhere
in the character list `s`. -/
def subOccurs (t : List Char) : List Char → Bool
  | [] => startsWithChars t []
  | c :: cs => startsWithChars t (c :: cs) || subOccurs t cs

/-- Substring containment, modelling the Python `t in s` test. -/
def strContains (s t : String) : Bool :=
  subOccurs t.data s.data

/-- Python `s.strip()`: remove leading and trailing whitespace. -/
def pyStrip (s : String) : String :=
  String.mk (((s.data.dropWhile Char.isWhitespace).reverse.dropWhile
    Char.isWhitespace).reverse)

/-- Python `s.lower()`. -/
def pyLower (s : String) : String :=
  String.mk (s.data.map Char.toLower)

/-- JSON values appearing in the response bodies built by the handlers. -/
inductive JVal where
  | str (s : String)
  | bool (b : Bool)
deriving DecidableEq, Repr

/-- An HTTP response as produced by `jsonify(...), status`: a status code
and a JSON object body. -/
structure HttpResponse where
  status : Nat
  body : List (String × JVal)
deriving DecidableEq, Repr

/-- Lookup of a key in a JSON object (first occurrence). -/
def jlook (body : List (String × JVal)) (k : String) : Option JVal :=
  (body.find? (fun p => p.1 == k)).map Prod.snd

/-- A request body: association list of string-valued fields, modelling
`request.json or {}`. -/
abbrev ReqData := List (String × String)

/-- Field access `data.get(f)`. -/
def jget (data : ReqData) (k : String) : Option String :=
  (data.find? (fun p => p.1 == k)).map Prod.snd

/-- Python falsiness of `data.get(f)` for string fields: the key is
absent or its value is the empty string. -/
def falsyField (v : Option String) : Bool :=
  match v with
  | none => true
  | some s => s.isEmpty

/-- MODEL_NAME = "gemini-2.5-flash-lite" (app.py line 34). -/
def MODEL_NAME : String := "gemini-2.5-flash-lite"

/-- MIN_REQUEST_INTERVAL = 15 (app.py line 69), in seconds. -/
def MIN_REQUEST_INTERVAL : ℚ := 15

/-- Model of `rate_limit()` (app.py lines 71-79), single-threaded with an
idealised exact sleep.  Input: the clock value `now` at entry and the
stored `LAST_REQUEST_TIME` value `last`.  Output: the time slept
(`wait_time`, 0 when no wait) and the new `LAST_REQUEST_TIME` stamp,
which is the clock value when the function returns (`now + wait`). -/
def rate_limit (now last : ℚ) : ℚ × ℚ :=
  let elapsed := now - last
  if elapsed < MIN_REQUEST_INTERVAL then
    let wait := MIN_REQUEST_INTERVAL - elapsed
    (wait, now + wait)
  else
    (0, now)

/-- One element of `content.parts` in a Gemini response. -/
structure GPart where
  text : String
deriving DecidableEq, Repr

/-- The `content` object of a Gemini candidate. -/
structure GContent where
  parts : List GPart
deriving DecidableEq, Repr

/-- One element of `candidates` in a Gemini response. -/
structure GCandidate where
  content : GContent
deriving DecidableEq, Repr

/-- Parsed JSON body of a provider HTTP response: the `candidates` array
and the optional `error.message` field (`response.json()`). -/
structure GeminiBody where
  candidates : List GCandidate
  errorMessage : Option String
deriving DecidableEq, Repr

/-- Outcome of the outbound `requests.post` in `call_gemini_api`: either a
transport/timeout exception with message `str(e)`, or an HTTP response
with a status code and parsed JSON body. -/
inductive ProviderResponse where
  | exn (msg : String)
  | http (status : Nat) (body : GeminiBody)
deriving DecidableEq, Repr

/-- The fixed quota-exceeded message returned on provider HTTP 429
(app.py line 96). -/
def quotaMessage : String :=
  "⚠️ Rate limit exceeded. Please wait a few minutes and try again. Check your quota at: https://ai.dev/usage"

/-- Extraction `result['candidates'][0]['content']['parts'][0]['text']`
(app.py line 94); `none` when an index is out of range. -/
def extractText (body : GeminiBody) : Option String :=
  (body.candidates.head?.bind (fun c => c.content.parts.head?)).map GPart.text

/-- Message of the Python `IndexError` raised when the candidate/part
indexing on a 200 body fails. -/
def indexErrorMsg : String := "list index out of range"

/-- Body of the `try` block of `call_gemini_api` (app.py lines 83-101):
`Except.error e` means a Python exception with message `e` propagates to
the enclosing `except`. -/
def call_gemini_api_try (resp : ProviderResponse) : Except String String :=
  match resp with
  | .exn msg => .error msg
  | .http status body =>
    if status == 200 then
      match extractText body with
      | some t => .ok t
      | none => .error indexErrorMsg
    else if status == 429 then
      .ok quotaMessage
    else
      .ok ("API Error: " ++ (body.errorMessage.getD "Unknown error"))

/-- `call_gemini_api(prompt)` (app.py lines 81-104): the `try` body with
the exception handler `return f"Error: {str(e)}"` wrapped around it.  The
prompt only feeds the outbound request, so the function is modelled on
the provider outcome. -/
def call_gemini_api (resp : ProviderResponse) : String :=
  match call_gemini_api_try resp with
  | .ok s => s
  | .error e => "Error: " ++ e

/-- Environment fixed at process start: CREWAI_AVAILABLE, whether the
global LLM handle was initialised (`LLM is not None`), and GEMINI_KEY. -/
structure Env where
  crewaiAvailable : Bool
  llmInitialized : Bool
  geminiKey : Option String
deriving DecidableEq, Repr

/-- Python truthiness of GEMINI_KEY: set and non-empty. -/
def keyConfigured (key : Option String) : Bool :=
  match key with
  | none => false
  | some s => !s.isEmpty

/-- Outcome of `crew.kickoff()`: the aggregated textual result, or an
exception with message `str(e)`. -/
inductive CrewOutcome where
  | ok (result : String)
  | exn (msg : String)
deriving DecidableEq, Repr

/-- required_fields of `/analyze` (app.py lines 321-329). -/
def required_fields : List String :=
  [ "technology_description"
  , "trademark_name"
  , "market_description"
  , "estimated_revenue"
  , "budget"
  , "timeline"
  , "competitor_list" ]

/-- `missing = [f for f in required_fields if not data.get(f)]`
(app.py line 330). -/
def missingFields (data : ReqData) : List String :=
  required_fields.filter (fun f => falsyField (jget data f))

/-- Quota-shape test on the exception text in the `/analyze` handler
(app.py line 374): `'429' in error_str or 'quota' in error_str.lower()
or 'RESOURCE_EXHAUSTED' in error_str`. -/
def quotaShaped (errorStr : String) : Bool :=
  strContains errorStr "429" || strContains (pyLower errorStr) "quota" ||
    strContains errorStr "RESOURCE_EXHAUSTED"

/-- Result of running a handler: the HTTP response, the value of
LAST_REQUEST_TIME afterwards, and whether the agent pipeline
(`crew.kickoff`) was invoked. -/
structure HandlerOut where
  resp : HttpResponse
  lastAfter : ℚ
  crewInvoked : Bool
deriving DecidableEq, Repr

/-- Error text of `/analyze` when CrewAI or the LLM handle is
unavailable (app.py line 317). -/
def analyzeUnavailableMsg : String :=
  "AI system not available. Please check your configuration and API quota at https://ai.dev/usage"

/-- Error text of `/analyze` on a quota-shaped pipeline failure
(app.py line 377). -/
def analyzeQuotaMsg : String :=
  "API quota exceeded. Please wait a few minutes and try again. Check your usage at: https://ai.dev/usage"

/-- The `/analyze` handler `analyze_ip` (app.py lines 311-383).  Inputs:
the process environment, the parsed request body, the oracle outcome of
`crew.kickoff()`, the clock value `now` at entry, and the stored
LAST_REQUEST_TIME `last`. -/
def analyze_ip (env : Env) (data : ReqData) (crew : CrewOutcome)
    (now last : ℚ) : HandlerOut :=
  if !env.crewaiAvailable || !env.llmInitialized then
    { resp := { status := 500
              , body := [("success", .bool false), ("error", .str analyzeUnavailableMsg)] }
    , lastAfter := last, crewInvoked := false }
  else
    let missing := missingFields data
    if !missing.isEmpty then
      { resp := { status := 400
                , body := [("error", .str ("Missing fields: " ++ String.intercalate ", " missing))] }
      , lastAfter := last, crewInvoked := false }
    else
      let newLast := (rate_limit now last).2
      match crew with
      | .ok result =>
        { resp := { status := 200
                  , body := [ ("success", .bool true)
                            , ("result", .str result)
                            , ("model_used", .str MODEL_NAME) ] }
        , lastAfter := newLast, crewInvoked := true }
      | .exn e =>
        if quotaShaped e then
          { resp := { status := 429
                    , body := [("success", .bool false), ("error", .str analyzeQuotaMsg)] }
          , lastAfter := newLast, crewInvoked := true }
        else
          { resp := { status := 500
                    , body := [("success", .bool false), ("error", .str ("Analysis failed: " ++ e.take 200))] }
          , lastAfter := newLast, crewInvoked := true }

/-- The `/chat` handler (app.py lines 264-309).  Inputs: GEMINI_KEY, the
parsed request body, the oracle outcome of the single outbound provider
call, the clock value at entry, and the stored LAST_REQUEST_TIME. -/
def chat (key : Option String) (data : ReqData) (presp : ProviderResponse)
    (now last : ℚ) : HandlerOut :=
  if !keyConfigured key then
    { resp := { status := 500
              , body := [ ("success", .bool false)
                        , ("error", .str "AI system not available. Please check API key configuration.") ] }
    , lastAfter := last, crewInvoked := false }
  else
    let userMessage := (jget data "message").getD ""
    if userMessage.isEmpty then
      { resp := { status := 400, body := [("error", .str "No message provided")] }
      , lastAfter := last, crewInvoked := false }
    else
      let newLast := (rate_limit now last).2
      let response := call_gemini_api presp
      if !response.isEmpty then
        { resp := { status := 200
                  , body := [ ("success", .bool true)
                            , ("response", .str response)
                            , ("model_used", .str MODEL_NAME) ] }
        , lastAfter := newLast, crewInvoked := false }
      else
        { resp := { status := 500
                  , body := [("success", .bool false), ("error", .str "Failed to get response from AI")] }
        , lastAfter := newLast, crewInvoked := false }

/-- `refine_output(raw_text, short)` of the refinement variant
(app.py lines 516-548, the commented-out alternate implementation cited
by the claims).  Inputs: GEMINI_KEY, the raw text, and the oracle
outcome of the second provider call; the editorial prompt only feeds the
outbound request.  Python `strip()` is modelled by `pyStrip`. -/
def refine_output (key : Option String) (raw_text : String)
    (presp : ProviderResponse) : String :=
  if !keyConfigured key then
    raw_text
  else
    let refined := call_gemini_api presp
    if refined.isEmpty || strContains refined "API Error" ||
        strContains refined "Rate limit exceeded" then
      pyStrip raw_text
    else
      pyStrip refined


/-- A complete request body for `/analyze`: all seven required fields
present and non-empty. -/
def fullData : ReqData :=
  [ ("technology_description", "t"), ("trademark_name", "n")
  , ("market_description", "m"), ("estimated_revenue", "r")
  , ("budget", "b"), ("timeline", "l"), ("competitor_list", "c") ]

/-- An incomplete request body for `/analyze`: one field present, one
present but empty, five absent. -/
def partialData : ReqData :=
  [("technology_description", "AI widget"), ("budget", "")]

/-- Environment with CrewAI imported, the LLM handle initialised, and a
provider key configured. -/
def envOK : Env :=
  { crewaiAvailable := true, llmInitialized := true, geminiKey := some "AIzaTest" }

/-- A provider 200 body with one candidate whose first part is "hello". -/
def gbodyOne : GeminiBody :=
  { candidates := [{ content := { parts := [{ text := "hello" }] } }]
  , errorMessage := none }

/-- A provider 200 body whose first candidate text is the empty string. -/
def emptyTextBody : GeminiBody :=
  { candidates := [{ content := { parts := [{ text := "" }] } }]
  , errorMessage := none }

/-- A provider body with no candidates and no error message. -/
def gbodyEmpty : GeminiBody :=
  { candidates := [], errorMessage := none }

theorem startsWithChars_append_self (t rest : List Char) :
    startsWithChars t (t ++ rest) = true := by
  induction t with
  | nil => rfl
  | cons a as ih => simp [startsWithChars, ih]

theorem subOccurs_append_self (t rest : List Char) (h : t ≠ []) :
    subOccurs t (t ++ rest) = true := by
  cases t with
  | nil => exact absurd rfl h
  | cons a as =>
    simp only [List.cons_append, subOccurs, Bool.or_eq_true]
    exact Or.inl (startsWithChars_append_self (a :: as) rest)

theorem strContains_apiError (msg : String) :
    strContains ("API Error: " ++ msg) "API Error" = true := by
  unfold strContains
  have hsplit : ("API Error: " ++ msg).data =
      "API Error".data ++ (':' :: ' ' :: msg.data) := by
    have h1 : ("API Error: " ++ msg).data = "API Error: ".data ++ msg.data := by
      rfl
    have h2 : "API Error: ".data = "API Error".data ++ [':', ' '] := by decide
    rw [h1, h2, List.append_assoc]
    rfl
  rw [hsplit]
  exact subOccurs_append_self _ _ (by decide)

/-- C4: `call_gemini_api` is total over its input: every exception of
the `try` body is converted to a generic "Error: ..." string; on a
provider HTTP 200 whose body carries a first candidate text it returns
that text; on HTTP 429 it returns the fixed quota-exceeded message; on
any other status it returns the provider error message prefixed with
"API Error: "; on a transport/timeout exception it returns the generic
error string. -/
theorem call_gemini_api_cases :
    (∀ (gbody : GeminiBody) (t : String), extractText gbody = some t →
      call_gemini_api (.http 200 gbody) = t) ∧
    (∀ gbody : GeminiBody, call_gemini_api (.http 429 gbody) = quotaMessage) ∧
    (∀ (st : Nat) (gbody : GeminiBody), st ≠ 200 → st ≠ 429 →
      call_gemini_api (.http st gbody) =
        "API Error: " ++ gbody.errorMessage.getD "Unknown error") ∧
    (∀ msg : String, call_gemini_api (.exn msg) = "Error: " ++ msg) ∧
    (∀ (presp : ProviderResponse) (e : String),
      call_gemini_api_try presp = .error e →
      call_gemini_api presp = "Error: " ++ e) := by
  refine ⟨?_, ?_, ?_, ?_, ?_⟩
  · intro gbody t h
    simp [call_gemini_api, call_gemini_api_try, h]
  · intro gbody
    simp [call_gemini_api, call_gemini_api_try]
  · intro st gbody h200 h429
    simp [call_gemini_api, call_gemini_api_try, beq_iff_eq, h200, h429]
  · intro msg
    rfl
  · intro presp e h
    simp [call_gemini_api, h]

/-- Witness for C4 at concrete inputs. -/
theorem call_gemini_api_cases_witness :
    extractText gbodyOne = some "hello" ∧
    call_gemini_api (.http 200 gbodyOne) = "hello" ∧
    call_gemini_api (.http 429 gbodyOne) = quotaMessage ∧
    call_gemini_api
        (.http 500 { candidates := [], errorMessage := some "boom" }) =
      "API Error: " ++ "boom" ∧
    call_gemini_api (.exn "timeout") = "Error: " ++ "timeout" ∧
    call_gemini_api_try (.exn "timeout") = .error "timeout" :=
  ⟨by decide,
   call_gemini_api_cases.1 gbodyOne "hello" (by decide),
   call_gemini_api_cases.2.1 gbodyOne,
   call_gemini_api_cases.2.2.1 500 _ (by decide) (by decide),
   call_gemini_api_cases.2.2.2.1 "timeout",
   rfl⟩

/-- C5: single-threaded rate limiter with idealised sleep.  If the time
elapsed since the stored last-call timestamp is below the minimum
interval, the caller is blocked for exactly the remaining time; the new
stamp is the clock value when the caller proceeds; and a second
rate-limited call entered at or after the first one proceeded is
separated from it by at least the minimum interval. -/
theorem rate_limit_spec :
    (∀ now last : ℚ, now - last < MIN_REQUEST_INTERVAL →
      (rate_limit now last).1 = MIN_REQUEST_INTERVAL - (now - last)) ∧
    (∀ now last : ℚ, (rate_limit now last).2 = now + (rate_limit now last).1) ∧
    (∀ now₁ last now₂ : ℚ, (rate_limit now₁ last).2 ≤ now₂ →
      MIN_REQUEST_INTERVAL ≤
        (now₂ + (rate_limit now₂ ((rate_limit now₁ last).2)).1) -
          (now₁ + (rate_limit now₁ last).1)) := by
  have hwait : ∀ now last : ℚ, now - last < MIN_REQUEST_INTERVAL →
      (rate_limit now last).1 = MIN_REQUEST_INTERVAL - (now - last) := by
    intro now last h
    simp [rate_limit, h]
  have hstamp : ∀ now last : ℚ,
      (rate_limit now last).2 = now + (rate_limit now last).1 := by
    intro now last
    by_cases h : now - last < MIN_REQUEST_INTERVAL <;> simp [rate_limit, h]
  refine ⟨hwait, hstamp, ?_⟩
  intro now₁ last now₂ hle
  have hs := hstamp now₁ last
  set s := (rate_limit now₁ last).2 with hsdef
  by_cases h : now₂ - s < MIN_REQUEST_INTERVAL
  · rw [hwait _ _ h]
    linarith
  · have h0 : (rate_limit now₂ s).1 = 0 := by
      simp [rate_limit, h]
    rw [h0]
    push_neg at h
    linarith

/-- Witness for C5 at concrete inputs: a call at time 10 with last stamp
0 waits exactly 5 and stamps 15; a second call at time 16 proceeds at
least 15 after the first proceeded. -/
theorem rate_limit_spec_witness :
    ((10 : ℚ) - 0 < MIN_REQUEST_INTERVAL) ∧
    (rate_limit 10 0).1 = MIN_REQUEST_INTERVAL - ((10 : ℚ) - 0) ∧
    (rate_limit 10 0).2 = 10 + (rate_limit 10 0).1 ∧
    ((rate_limit 10 0).2 ≤ (16 : ℚ)) ∧
    MIN_REQUEST_INTERVAL ≤
      (16 + (rate_limit 16 ((rate_limit 10 0).2)).1) -
        (10 + (rate_limit 10 0).1) :=
  ⟨by norm_num [MIN_REQUEST_INTERVAL],
   rate_limit_spec.1 10 0 (by norm_num [MIN_REQUEST_INTERVAL]),
   rate_limit_spec.2.1 10 0,
   by norm_num [rate_limit, MIN_REQUEST_INTERVAL],
   rate_limit_spec.2.2 10 0 16 (by norm_num [rate_limit, MIN_REQUEST_INTERVAL])⟩

/-- C2: when CrewAI is available and the LLM handle is initialised, an
`/analyze` request missing (or leaving empty) any required field gets
HTTP 400, the error text enumerates exactly the missing/empty field
names, and the agent pipeline is never invoked. -/
theorem analyze_missing_fields_400 (env : Env) (data : ReqData)
    (crew : CrewOutcome) (now last : ℚ)
    (hc : env.crewaiAvailable = true) (hl : env.llmInitialized = true)
    (hm : missingFields data ≠ []) :
    (analyze_ip env data crew now last).resp.status = 400 ∧
    (analyze_ip env data crew now last).resp.body =
      [("error", JVal.str ("Missing fields: " ++
        String.intercalate ", " (missingFields data)))] ∧
    (analyze_ip env data crew now last).crewInvoked = false ∧
    ∀ f, f ∈ missingFields data ↔
      f ∈ required_fields ∧ falsyField (jget data f) = true := by
  have hex : ∃ x ∈ required_fields, falsyField (jget data x) = true := by
    obtain ⟨f, hf⟩ := List.exists_mem_of_ne_nil _ hm
    simp only [missingFields, List.mem_filter] at hf
    exact ⟨f, hf.1, hf.2⟩
  unfold analyze_ip
  simp [hc, hl, hex, missingFields, List.mem_filter]

/-- Witness for C2 at a concrete incomplete request. -/
theorem analyze_missing_fields_400_witness :
    (envOK.crewaiAvailable = true ∧ envOK.llmInitialized = true ∧
      missingFields partialData ≠ []) ∧
    (analyze_ip envOK partialData (.ok "r") 0 0).resp.status = 400 ∧
    (analyze_ip envOK partialData (.ok "r") 0 0).resp.body =
      [("error", JVal.str ("Missing fields: " ++
        String.intercalate ", " (missingFields partialData)))] ∧
    (analyze_ip envOK partialData (.ok "r") 0 0).crewInvoked = false := by
  have h := analyze_missing_fields_400 envOK partialData (.ok "r") 0 0
    rfl rfl (by decide)
  exact ⟨⟨rfl, rfl, by decide⟩, h.1, h.2.1, h.2.2.1⟩

/-- C8: request validation has no side effects: a request failing field
validation returns 400 with the stored LAST_REQUEST_TIME unchanged and
without invoking the rate limiter or the agent pipeline. -/
theorem analyze_validation_pure (env : Env) (data : ReqData)
    (crew : CrewOutcome) (now last : ℚ)
    (hc : env.crewaiAvailable = true) (hl : env.llmInitialized = true)
    (hm : missingFields data ≠ []) :
    (analyze_ip env data crew now last).resp.status = 400 ∧
    (analyze_ip env data crew now last).lastAfter = last ∧
    (analyze_ip env data crew now last).crewInvoked = false := by
  have hne : (missingFields data).isEmpty = false := by
    cases hmm : missingFields data with
    | nil => exact absurd hmm hm
    | cons a as => rfl
  unfold analyze_ip
  simp [hc, hl, hne]

/-- Witness for C8 at a concrete incomplete request with a non-trivial
rate-limiter state. -/
theorem analyze_validation_pure_witness :
    (envOK.crewaiAvailable = true ∧ envOK.llmInitialized = true ∧
      missingFields [("trademark_name", "X")] ≠ []) ∧
    (analyze_ip envOK [("trademark_name", "X")] (.ok "r") 7 3).resp.status = 400 ∧
    (analyze_ip envOK [("trademark_name", "X")] (.ok "r") 7 3).lastAfter = 3 ∧
    (analyze_ip envOK [("trademark_name", "X")] (.ok "r") 7 3).crewInvoked = false := by
  have h := analyze_validation_pure envOK [("trademark_name", "X")] (.ok "r") 7 3
    rfl rfl (by decide)
  exact ⟨⟨rfl, rfl, by decide⟩, h.1, h.2.1, h.2.2⟩

/-- C9: the availability check precedes validation: when CrewAI is
unavailable or the LLM handle is uninitialised, every `/analyze`
request - with missing fields or not - receives HTTP 500 with the
fixed unavailability error, never the 400 missing-fields enumeration,
and nothing else happens. -/
theorem analyze_unavailable_500 (env : Env) (data : ReqData)
    (crew : CrewOutcome) (now last : ℚ)
    (h : env.crewaiAvailable = false ∨ env.llmInitialized = false) :
    (analyze_ip env data crew now last).resp.status = 500 ∧
    (analyze_ip env data crew now last).resp.body =
      [("success", JVal.bool false), ("error", JVal.str analyzeUnavailableMsg)] ∧
    (analyze_ip env data crew now last).resp.status ≠ 400 ∧
    (analyze_ip env data crew now last).lastAfter = last ∧
    (analyze_ip env data crew now last).crewInvoked = false := by
  unfold analyze_ip
  rcases h with h | h <;> simp [h]

/-- Witness for C9: CrewAI unavailable and a request with missing
fields still gets the 500 unavailability error, not a 400. -/
theorem analyze_unavailable_500_witness :
    ({ crewaiAvailable := false, llmInitialized := true,
       geminiKey := some "AIzaTest" : Env }.crewaiAvailable = false ∨
      ({ crewaiAvailable := false, llmInitialized := true,
         geminiKey := some "AIzaTest" : Env }.llmInitialized = false)) ∧
    missingFields partialData ≠ [] ∧
    (analyze_ip
        { crewaiAvailable := false, llmInitialized := true, geminiKey := some "AIzaTest" }
        partialData (.ok "r") 0 0).resp.status = 500 ∧
    (analyze_ip
        { crewaiAvailable := false, llmInitialized := true, geminiKey := some "AIzaTest" }
        partialData (.ok "r") 0 0).resp.status ≠ 400 := by
  have h := analyze_unavailable_500
    { crewaiAvailable := false, llmInitialized := true, geminiKey := some "AIzaTest" }
    partialData (.ok "r") 0 0 (Or.inl rfl)
  exact ⟨Or.inl rfl, by decide, h.1, h.2.2.1⟩

/-- C1 counterexample: with the provider key configured and all seven
fields present, a `crew.kickoff` exception makes `/analyze` fail with
HTTP 500 and success=false; no successful direct-API response with a
`method = direct_api` tag is produced (the response has no method key
at all). -/
theorem analyze_no_fallback_counterexample :
    keyConfigured envOK.geminiKey = true ∧
    missingFields fullData = [] ∧
    (analyze_ip envOK fullData (.exn "boom") 100 0).resp.status = 500 ∧
    jlook (analyze_ip envOK fullData (.exn "boom") 100 0).resp.body
      "success" = some (JVal.bool false) ∧
    jlook (analyze_ip envOK fullData (.exn "boom") 100 0).resp.body
      "method" = none := by
  decide

/-- C1 amended: on any `crew.kickoff` exception, `/analyze` fails the
request instead of falling back to the direct API client: quota-shaped
exception text yields HTTP 429 with the fixed quota error, any other
exception yields HTTP 500 with the truncated error text; in both cases
success=false and the response carries no method tag. -/
theorem analyze_pipeline_exception_no_fallback (env : Env) (data : ReqData)
    (e : String) (now last : ℚ)
    (hc : env.crewaiAvailable = true) (hl : env.llmInitialized = true)
    (hm : missingFields data = []) :
    (quotaShaped e = true →
      (analyze_ip env data (.exn e) now last).resp.status = 429 ∧
      (analyze_ip env data (.exn e) now last).resp.body =
        [("success", JVal.bool false), ("error", JVal.str analyzeQuotaMsg)]) ∧
    (quotaShaped e = false →
      (analyze_ip env data (.exn e) now last).resp.status = 500 ∧
      (analyze_ip env data (.exn e) now last).resp.body =
        [("success", JVal.bool false),
         ("error", JVal.str ("Analysis failed: " ++ e.take 200))]) ∧
    jlook (analyze_ip env data (.exn e) now last).resp.body "success" =
      some (JVal.bool false) ∧
    jlook (analyze_ip env data (.exn e) now last).resp.body "method" = none := by
  unfold analyze_ip
  by_cases hq : quotaShaped e <;> simp [hc, hl, hm, hq, jlook]

/-- Witness for the amended C1 at a concrete non-quota exception. -/
theorem analyze_pipeline_exception_no_fallback_witness :
    (envOK.crewaiAvailable = true ∧ envOK.llmInitialized = true ∧
      missingFields fullData = [] ∧ quotaShaped "boom" = false) ∧
    (analyze_ip envOK fullData (.exn "boom") 20 0).resp.status = 500 ∧
    (analyze_ip envOK fullData (.exn "boom") 20 0).resp.body =
      [("success", JVal.bool false),
       ("error", JVal.str ("Analysis failed: " ++ "boom".take 200))] ∧
    jlook (analyze_ip envOK fullData (.exn "boom") 20 0).resp.body "method" = none := by
  have h := analyze_pipeline_exception_no_fallback envOK fullData "boom" 20 0
    rfl rfl (by decide)
  exact ⟨⟨rfl, rfl, by decide, by decide⟩, (h.2.1 (by decide)).1,
    (h.2.1 (by decide)).2, h.2.2.2⟩

/-- C7 counterexample: a successful `/analyze` response carries no
method tag at all, contradicting the claimed
crewai-versus-direct_api method field. -/
theorem analyze_success_no_method_counterexample :
    (analyze_ip envOK fullData (.ok "REPORT") 100 0).resp.status = 200 ∧
    jlook (analyze_ip envOK fullData (.ok "REPORT") 100 0).resp.body
      "success" = some (JVal.bool true) ∧
    jlook (analyze_ip envOK fullData (.ok "REPORT") 100 0).resp.body
      "method" = none := by
  decide

/-- C7 amended: every successful `/analyze` response is HTTP 200 and
contains exactly the success flag, the report text under `result`, and
the model identifier under `model_used`; it contains no method tag. -/
theorem analyze_success_response_shape (env : Env) (data : ReqData)
    (r : String) (now last : ℚ)
    (hc : env.crewaiAvailable = true) (hl : env.llmInitialized = true)
    (hm : missingFields data = []) :
    (analyze_ip env data (.ok r) now last).resp.status = 200 ∧
    (analyze_ip env data (.ok r) now last).resp.body =
      [("success", JVal.bool true), ("result", JVal.str r),
       ("model_used", JVal.str MODEL_NAME)] ∧
    jlook (analyze_ip env data (.ok r) now last).resp.body "success" =
      some (JVal.bool true) ∧
    jlook (analyze_ip env data (.ok r) now last).resp.body "result" =
      some (JVal.str r) ∧
    jlook (analyze_ip env data (.ok r) now last).resp.body "model_used" =
      some (JVal.str MODEL_NAME) ∧
    jlook (analyze_ip env data (.ok r) now last).resp.body "method" = none := by
  unfold analyze_ip
  simp [hc, hl, hm, jlook]

/-- Witness for the amended C7 at a concrete successful request. -/
theorem analyze_success_response_shape_witness :
    (envOK.crewaiAvailable = true ∧ envOK.llmInitialized = true ∧
      missingFields fullData = []) ∧
    (analyze_ip envOK fullData (.ok "REPORT") 30 0).resp.status = 200 ∧
    (analyze_ip envOK fullData (.ok "REPORT") 30 0).resp.body =
      [("success", JVal.bool true), ("result", JVal.str "REPORT"),
       ("model_used", JVal.str MODEL_NAME)] ∧
    jlook (analyze_ip envOK fullData (.ok "REPORT") 30 0).resp.body "method" = none := by
  have h := analyze_success_response_shape envOK fullData "REPORT" 30 0
    rfl rfl (by decide)
  exact ⟨⟨rfl, rfl, by decide⟩, h.1, h.2.1, h.2.2.2.2.2⟩

/-- C3: on a provider HTTP 429, `/chat` surfaces the fixed
quota-exceeded message (its 200 body carries exactly that message, no
fabricated content), and `/analyze` maps a pipeline exception whose
text carries the 429 marker to HTTP 429 with the quota error text. -/
theorem quota_429_surfaced :
    (∀ (key : Option String) (data : ReqData) (gbody : GeminiBody)
        (now last : ℚ),
      keyConfigured key = true →
      ((jget data "message").getD "").isEmpty = false →
      (chat key data (.http 429 gbody) now last).resp.status = 200 ∧
      (chat key data (.http 429 gbody) now last).resp.body =
        [("success", JVal.bool true), ("response", JVal.str quotaMessage),
         ("model_used", JVal.str MODEL_NAME)] ∧
      strContains quotaMessage "Rate limit exceeded" = true) ∧
    (∀ (env : Env) (data : ReqData) (e : String) (now last : ℚ),
      env.crewaiAvailable = true → env.llmInitialized = true →
      missingFields data = [] → strContains e "429" = true →
      (analyze_ip env data (.exn e) now last).resp.status = 429 ∧
      jlook (analyze_ip env data (.exn e) now last).resp.body "error" =
        some (JVal.str analyzeQuotaMsg) ∧
      strContains analyzeQuotaMsg "quota" = true) := by
  constructor
  · intro key data gbody now last hk hmsg
    have hq : call_gemini_api (.http 429 gbody) = quotaMessage := by
      simp [call_gemini_api, call_gemini_api_try]
    have hqne : quotaMessage.isEmpty = false := by decide
    unfold chat
    simp [hk, hmsg, hq, hqne]
    decide
  · intro env data e now last hc hl hm h429
    have hq : quotaShaped e = true := by
      simp [quotaShaped, h429]
    unfold analyze_ip
    simp [hc, hl, hm, hq, jlook]
    decide

/-- Witness for C3 at concrete inputs on both endpoints. -/
theorem quota_429_surfaced_witness :
    (keyConfigured (some "AIzaTest") = true ∧
      ((jget [("message", "hi")] "message").getD "").isEmpty = false) ∧
    (chat (some "AIzaTest") [("message", "hi")] (.http 429 gbodyEmpty) 20 0).resp.status = 200 ∧
    (chat (some "AIzaTest") [("message", "hi")] (.http 429 gbodyEmpty) 20 0).resp.body =
      [("success", JVal.bool true), ("response", JVal.str quotaMessage),
       ("model_used", JVal.str MODEL_NAME)] ∧
    (envOK.crewaiAvailable = true ∧ envOK.llmInitialized = true ∧
      missingFields fullData = [] ∧
      strContains "RateLimitError: 429" "429" = true) ∧
    (analyze_ip envOK fullData (.exn "RateLimitError: 429") 20 0).resp.status = 429 ∧
    jlook (analyze_ip envOK fullData (.exn "RateLimitError: 429") 20 0).resp.body
      "error" = some (JVal.str analyzeQuotaMsg) := by
  have h1 := quota_429_surfaced.1 (some "AIzaTest") [("message", "hi")]
    gbodyEmpty 20 0 (by decide) (by decide)
  have h2 := quota_429_surfaced.2 envOK fullData "RateLimitError: 429" 20 0
    rfl rfl (by decide) (by decide)
  exact ⟨⟨by decide, by decide⟩, h1.1, h1.2.1,
    ⟨rfl, rfl, by decide, by decide⟩, h2.1, h2.2.1⟩

/-- C6 counterexample: a transport-exception string produced by
`call_gemini_api` ("Error: timeout") is error-shaped, yet
`refine_output` returns it instead of the stripped original text. -/
theorem refine_output_error_passthrough_counterexample :
    keyConfigured (some "AIzaTest") = true ∧
    call_gemini_api (.exn "timeout") = "Error: timeout" ∧
    pyStrip "  report  " = "report" ∧
    refine_output (some "AIzaTest") "  report  " (.exn "timeout") =
      "Error: timeout" ∧
    refine_output (some "AIzaTest") "  report  " (.exn "timeout") ≠ "report" := by
  decide

/-- C6 amended: with a key configured, `refine_output` falls back to
the stripped original text exactly when the refinement result is empty
or contains "API Error" or "Rate limit exceeded" - which covers the
provider-429 and non-200 shapes of an unsuccessful `call_gemini_api` -
and otherwise returns the stripped refinement result, so a
transport-exception string "Error: ..." is passed through rather than
replaced by the original. -/
theorem refine_output_fallback (key : Option String) (raw : String)
    (presp : ProviderResponse) (hk : keyConfigured key = true) :
    (((call_gemini_api presp).isEmpty ||
        strContains (call_gemini_api presp) "API Error" ||
        strContains (call_gemini_api presp) "Rate limit exceeded") = true →
      refine_output key raw presp = pyStrip raw) ∧
    (((call_gemini_api presp).isEmpty ||
        strContains (call_gemini_api presp) "API Error" ||
        strContains (call_gemini_api presp) "Rate limit exceeded") = false →
      refine_output key raw presp = pyStrip (call_gemini_api presp)) ∧
    (∀ gbody : GeminiBody,
      refine_output key raw (.http 429 gbody) = pyStrip raw) ∧
    (∀ (st : Nat) (gbody : GeminiBody), st ≠ 200 → st ≠ 429 →
      refine_output key raw (.http st gbody) = pyStrip raw) := by
  refine ⟨?_, ?_, ?_, ?_⟩
  · intro h
    unfold refine_output
    simp [hk, h]
  · intro h
    unfold refine_output
    simp [hk, h]
  · intro gbody
    have hq : call_gemini_api (.http 429 gbody) = quotaMessage := by
      simp [call_gemini_api, call_gemini_api_try]
    have hrl : strContains quotaMessage "Rate limit exceeded" = true := by decide
    unfold refine_output
    simp [hk, hq, hrl]
  · intro st gbody h200 h429
    have hm : call_gemini_api (.http st gbody) =
        "API Error: " ++ gbody.errorMessage.getD "Unknown error" := by
      simp [call_gemini_api, call_gemini_api_try, beq_iff_eq, h200, h429]
    unfold refine_output
    simp [hk, hm, strContains_apiError]

/-- Witness for the amended C6 at concrete provider outcomes. -/
theorem refine_output_fallback_witness :
    keyConfigured (some "AIzaTest") = true ∧
    refine_output (some "AIzaTest") "  report  " (.http 429 gbodyEmpty) = "report" ∧
    ((500 : Nat) ≠ 200 ∧ (500 : Nat) ≠ 429) ∧
    refine_output (some "AIzaTest") "  report  "
      (.http 500 { candidates := [], errorMessage := some "boom" }) = "report" ∧
    ((call_gemini_api (.exn "timeout")).isEmpty ||
        strContains (call_gemini_api (.exn "timeout")) "API Error" ||
        strContains (call_gemini_api (.exn "timeout")) "Rate limit exceeded") = false ∧
    refine_output (some "AIzaTest") "  report  " (.exn "timeout") =
      pyStrip (call_gemini_api (.exn "timeout")) := by
  have h := refine_output_fallback (some "AIzaTest") "  report  "
    (.exn "timeout") (by decide)
  refine ⟨by decide, ?_, ⟨by decide, by decide⟩, ?_, by decide, h.2.1 (by decide)⟩
  · have h429 := refine_output_fallback (some "AIzaTest") "  report  "
      (.http 429 gbodyEmpty) (by decide)
    rw [h429.2.2.1 gbodyEmpty]
    decide
  · have h500 := refine_output_fallback (some "AIzaTest") "  report  "
      (.http 500 { candidates := [], errorMessage := some "boom" }) (by decide)
    rw [h500.2.2.2 500 _ (by decide) (by decide)]
    decide

/-- C10 counterexample: with the key configured, a non-empty message
and no handler exception, a provider 200 whose first candidate text is
empty still makes `/chat` return HTTP 500, so 500 does not only arise
from a missing key or a handler exception. -/
theorem chat_empty_response_500_counterexample :
    keyConfigured (some "AIzaTest") = true ∧
    call_gemini_api (.http 200 emptyTextBody) = "" ∧
    (chat (some "AIzaTest") [("message", "hi")] (.http 200 emptyTextBody)
      100 0).resp.status = 500 := by
  decide

/-- C10 amended: with the key configured and a non-empty message,
whenever `call_gemini_api` returns any non-empty string - including
its error-shaped strings - `/chat` answers HTTP 200 with success=true,
that exact string under `response`, and the model name; `/chat`
answers 500 only when the string is empty (the missing-key 500 being
excluded by the hypothesis, handler exceptions having no counterpart
in this embedding). -/
theorem chat_response_passthrough (key : Option String) (data : ReqData)
    (presp : ProviderResponse) (now last : ℚ)
    (hk : keyConfigured key = true)
    (hmsg : ((jget data "message").getD "").isEmpty = false) :
    ((call_gemini_api presp).isEmpty = false →
      (chat key data presp now last).resp.status = 200 ∧
      (chat key data presp now last).resp.body =
        [("success", JVal.bool true),
         ("response", JVal.str (call_gemini_api presp)),
         ("model_used", JVal.str MODEL_NAME)]) ∧
    ((chat key data presp now last).resp.status = 500 →
      (call_gemini_api presp).isEmpty = true) := by
  unfold chat
  by_cases h : (call_gemini_api presp).isEmpty <;> simp [hk, hmsg, h]

/-- Witness for the amended C10: an error-shaped provider outcome is
passed through as a 200 success response. -/
theorem chat_response_passthrough_witness :
    (keyConfigured (some "AIzaTest") = true ∧
      ((jget [("message", "hi")] "message").getD "").isEmpty = false ∧
      (call_gemini_api (.exn "timeout")).isEmpty = false) ∧
    (chat (some "AIzaTest") [("message", "hi")] (.exn "timeout") 20 0).resp.status = 200 ∧
    (chat (some "AIzaTest") [("message", "hi")] (.exn "timeout") 20 0).resp.body =
      [("success", JVal.bool true), ("response", JVal.str (call_gemini_api (.exn "timeout"))),
       ("model_used", JVal.str MODEL_NAME)] := by
  have h := chat_response_passthrough (some "AIzaTest") [("message", "hi")]
    (.exn "timeout") 20 0 (by decide) (by decide)
  exact ⟨⟨by decide, by decide, by decide⟩, (h.1 (by decide)).1, (h.1 (by decide)).2⟩

end IPStrategist
